import Mathlib

/-!
Verification of the monday-file-backend proxy server (`src/server.js`).

The server exposes three POST routes (`/upload`, `/create-item`,
`/create-subitem`) that validate their inputs, build one outbound HTTPS
request to the upstream GraphQL API, and relay the upstream response.

Modelling conventions of this shallow embedding:
* wire data is modelled at byte granularity, one `Char` standing for one
  byte of the UTF-8 encoded data;
* each handler is a pure function from the inbound request and the
  upstream outcome to a `HandlerResult` recording the inbound response,
  the list of outbound upstream calls issued, and the list of temp-file
  deletion attempts (`fs.unlink` calls);
* `JSON.parse` of the JavaScript runtime is kept abstract as a parameter
  `parse : String → Option J`: `some` models a successful parse, `none`
  models a thrown `SyntaxError` caught by the handler's `try`/`catch`.
-/

/-- A JavaScript value as it can appear in a JSON request body. -/
inductive JsVal where
  | undef
  | null
  | boolean (b : Bool)
  | num (n : Int)
  | str (s : String)
deriving DecidableEq

/-- JavaScript truthiness, as used by the `!boardId || !itemName` style
validation guards (`server.js` lines 45, 139, 188). -/
def truthy : JsVal → Bool
  | .undef => false
  | .null => false
  | .boolean b => b
  | .num n => n != 0
  | .str s => s != ""

/-- Truthiness of an Express query parameter (a string when present,
`undefined` when absent). -/
def truthyOpt : Option String → Bool
  | none => false
  | some s => s != ""

/-- JavaScript template-literal coercion of a value to text, as used when
splicing `boardId` and `itemName` into the mutation strings. -/
def interp : JsVal → String
  | .undef => "undefined"
  | .null => "null"
  | .boolean b => cond b "true" "false"
  | .num n => toString n
  | .str s => s

/-- Lower-case hexadecimal digit for a value below 16. -/
def hexDigit (n : Nat) : Char :=
  if n < 10 then Char.ofNat (48 + n) else Char.ofNat (87 + n)

/-- Modelled from the spec: the escaping `JSON.stringify` applies to one
character of a string value (the JSON encoder is part of the JavaScript
runtime, not of this repository). -/
def jsonEscapeChar (c : Char) : String :=
  if c = '\x22' then "\\\x22"
  else if c = '\\' then "\\\\"
  else if c = '\n' then "\\n"
  else if c = '\r' then "\\r"
  else if c = '\t' then "\\t"
  else if c = '\x08' then "\\b"
  else if c = '\x0c' then "\\f"
  else if c.toNat < 32 then
    "\\u00" ++ String.singleton (hexDigit (c.toNat / 16)) ++ String.singleton (hexDigit (c.toNat % 16))
  else String.singleton c

/-- Modelled from the spec: `JSON.stringify` on a string value, without the
surrounding quotes. -/
def jsonEscape (s : String) : String :=
  s.data.foldl (fun acc c => acc ++ jsonEscapeChar c) ""

/-- Modelled from the spec: `JSON.stringify({ item_id, column_id, file: null })`
for the `variables` part of the upload body (`server.js` lines 63-67, 79). -/
def stringifyVariables (item_id column_id : String) : String :=
  "\x7b\x22item_id\x22:\x22" ++ jsonEscape item_id ++
  "\x22,\x22column_id\x22:\x22" ++ jsonEscape column_id ++
  "\x22,\x22file\x22:null\x7d"

/-- Modelled from the spec: `JSON.stringify({ query })`, the body of the
create-item and create-subitem outbound requests (`server.js` lines 180, 229). -/
def stringifyQueryBody (q : String) : String :=
  "\x7b\x22query\x22:\x22" ++ jsonEscape q ++ "\x22\x7d"

/-- The fixed `add_file_to_column` mutation text (`server.js` lines 55-61). -/
def addFileQuery : String :=
  "\n    mutation addFile($file: File!, $item_id: ID!, $column_id: String!) \x7b\n      add_file_to_column(item_id: $item_id, column_id: $column_id, file: $file) \x7b\n        id\n      \x7d\n    \x7d\n  "

/-- Mutation text built by the create-item handler (`server.js` lines 143-149):
direct string interpolation of `boardId` and `itemName`, no escaping. -/
def createItemQuery (boardId itemName : String) : String :=
  "\n    mutation \x7b\n      create_item(board_id: " ++ boardId ++
  ", item_name: \x22" ++ itemName ++
  "\x22) \x7b\n        id\n      \x7d\n    \x7d\n  "

/-- Mutation text built by the create-subitem handler (`server.js` lines
192-198). -/
def createSubitemQuery (parentItemId itemName : String) : String :=
  "\n    mutation \x7b\n      create_subitem(parent_item_id: " ++ parentItemId ++
  ", item_name: \x22" ++ itemName ++
  "\x22) \x7b\n        id\n      \x7d\n    \x7d\n  "

/-- The multipart form text assembled by the upload handler
(`server.js` lines 71-88): three textual parts and the headers of the
file part, each chunk mirroring one `formData +=` statement. -/
def uploadFormData (boundary query variablesJson filename : String) : String :=
  "--" ++ boundary ++ "\r\n" ++
  "Content-Disposition: form-data; name=\x22query\x22\r\n\r\n" ++
  query ++ "\r\n" ++
  "--" ++ boundary ++ "\r\n" ++
  "Content-Disposition: form-data; name=\x22variables\x22\r\n\r\n" ++
  variablesJson ++ "\r\n" ++
  "--" ++ boundary ++ "\r\n" ++
  "Content-Disposition: form-data; name=\x22map\x22\r\n\r\n" ++
  "\x7b\x22fileField\x22: [\x22variables.file\x22]\x7d\r\n" ++
  "--" ++ boundary ++ "\r\n" ++
  "Content-Disposition: form-data; name=\x22fileField\x22; filename=\x22" ++ filename ++ "\x22\r\n" ++
  "Content-Type: application/octet-stream\r\n\r\n"

/-- The single outbound buffer
`Buffer.concat([utf8 formData, fileContent, utf8 closing])`
(`server.js` lines 89-93). -/
def uploadPayload (boundary query variablesJson filename : String)
    (fileContent : List Char) : List Char :=
  (uploadFormData boundary query variablesJson filename).data ++ fileContent ++
  ("\r\n--" ++ boundary ++ "--\r\n").data

/-- Outbound request options, mirroring the object literals passed to
`https.request`. -/
structure RequestOptions where
  method : String
  hostname : String
  path : String
  headers : List (String × String)
deriving DecidableEq

/-- Options of the outbound upload request (`server.js` lines 95-104). -/
def uploadOptions (apiKey boundary : String) (contentLength : Nat) : RequestOptions :=
  ⟨"POST", "api.monday.com", "/v2/file",
    [("Authorization", apiKey),
     ("Content-Type", "multipart/form-data; boundary=" ++ boundary),
     ("Content-Length", toString contentLength)]⟩

/-- Options of the outbound create-item / create-subitem requests
(`server.js` lines 151-159 and 200-208, two identical literals). -/
def v2Options (apiKey : String) : RequestOptions :=
  ⟨"POST", "api.monday.com", "/v2",
    [("Authorization", apiKey),
     ("Content-Type", "application/json")]⟩

/-- Body of an inbound response: relayed parsed JSON (`res.json(parsedData)`),
a JSON error object (`res.json({ error })`), or plain text (`res.send`). -/
inductive ResBody (J : Type) where
  | json (val : J)
  | jsonError (msg : String)
  | text (msg : String)
deriving DecidableEq

/-- An inbound HTTP response. -/
structure Response (J : Type) where
  status : Nat
  body : ResBody J
deriving DecidableEq

/-- Outcome of the outbound HTTPS call: a transport error (the request's
`error` event) or an upstream response with a status code and an
accumulated body. -/
inductive UpstreamResult where
  | transportError
  | response (statusCode : Nat) (body : String)
deriving DecidableEq

/-- The upstream-response handling shared by the three routes
(`server.js` lines 106-123, 161-178, 210-227): accumulate the body, try
to parse it as JSON, relay the parsed value with status 200, answer 500
`Invalid JSON response` when the parse throws, and answer 500 with a
route-specific message on a transport error.  The upstream status code is
never consulted. -/
def respondUpstream {J : Type} (parse : String → Option J) (failMsg : String) :
    UpstreamResult → Response J
  | .transportError => ⟨500, .text failMsg⟩
  | .response _ body =>
    match parse body with
    | some j => ⟨200, .json j⟩
    | none => ⟨500, .text "Invalid JSON response"⟩

/-- The file record multer attaches to the request after storing the
upload in a temp file (`req.file`). -/
structure FileRec where
  path : String
  originalname : String
  content : List Char
deriving DecidableEq

/-- Inbound upload request: the two query parameters and the multer file.
`req.file = some f` means multer created a temp file for this request. -/
structure UploadReq where
  item_id : Option String
  column_id : Option String
  file : Option FileRec
deriving DecidableEq

/-- Inbound create-item request body. -/
structure CreateItemReq where
  boardId : JsVal
  itemName : JsVal
deriving DecidableEq

/-- Inbound create-subitem request body. -/
structure CreateSubitemReq where
  parentItemId : JsVal
  itemName : JsVal
deriving DecidableEq

/-- Everything observable a handler does: the inbound response, the
outbound upstream calls (options plus body bytes), and the temp-file
deletion attempts (`fs.unlink` calls, by path). -/
structure HandlerResult (J : Type) where
  response : Response J
  outbound : List (RequestOptions × List Char)
  unlinks : List String
deriving DecidableEq

/-- The outbound payload the upload handler assembles for a validated
request (`server.js` lines 53-93). -/
def uploadPayloadOf (boundary : String) (req : UploadReq) (f : FileRec) : List Char :=
  uploadPayload boundary addFileQuery
    (stringifyVariables (req.item_id.getD "") (req.column_id.getD ""))
    f.originalname f.content

/-- The `/upload` handler (`server.js` lines 42-133).  Validation guards
first; on a validated request it dispatches one outbound call and then
unconditionally attempts exactly one `fs.unlink` of the temp file
(line 128), while the inbound response is determined by the upstream
outcome. -/
def uploadHandler {J : Type} (parse : String → Option J) (apiKey boundary : String)
    (req : UploadReq) (up : UpstreamResult) : HandlerResult J :=
  if !truthyOpt req.item_id || !truthyOpt req.column_id then
    ⟨⟨400, .jsonError "Missing item_id or column_id in query params"⟩, [], []⟩
  else
    match req.file with
    | none => ⟨⟨400, .jsonError "No file uploaded"⟩, [], []⟩
    | some f =>
      ⟨respondUpstream parse "Upload failed" up,
       [(uploadOptions apiKey boundary (uploadPayloadOf boundary req f).length,
         uploadPayloadOf boundary req f)],
       [f.path]⟩

/-- The `/create-item` handler (`server.js` lines 136-182). -/
def createItemHandler {J : Type} (parse : String → Option J) (apiKey : String)
    (req : CreateItemReq) (up : UpstreamResult) : HandlerResult J :=
  if !truthy req.boardId || !truthy req.itemName then
    ⟨⟨400, .jsonError "Missing boardId or itemName in request body"⟩, [], []⟩
  else
    ⟨respondUpstream parse "Create item failed" up,
     [(v2Options apiKey,
       (stringifyQueryBody (createItemQuery (interp req.boardId) (interp req.itemName))).data)],
     []⟩

/-- The `/create-subitem` handler (`server.js` lines 185-231). -/
def createSubitemHandler {J : Type} (parse : String → Option J) (apiKey : String)
    (req : CreateSubitemReq) (up : UpstreamResult) : HandlerResult J :=
  if !truthy req.parentItemId || !truthy req.itemName then
    ⟨⟨400, .jsonError "Missing parentItemId or itemName in request body"⟩, [], []⟩
  else
    ⟨respondUpstream parse "Create subitem failed" up,
     [(v2Options apiKey,
       (stringifyQueryBody (createSubitemQuery (interp req.parentItemId) (interp req.itemName))).data)],
     []⟩

/-- A concrete parse function that always fails, used to instantiate the
abstract `JSON.parse` parameter in closed statements. -/
def parseNone : String → Option Nat := fun _ => none

/-- A concrete parse function that always succeeds with the body length,
used to instantiate the abstract `JSON.parse` parameter in closed
statements. -/
def parseLen : String → Option Nat := fun s => some s.length

/-! ### Concrete sample data for closed statements -/

/-- A sample multer file record. -/
def fileA : FileRec := ⟨"uploads/tmp1", "report.pdf", "PDF".data⟩

/-- A second sample multer file record. -/
def fileB : FileRec := ⟨"uploads/tmp2", "data.bin", "01".data⟩

/-- A sample validated upload request. -/
def uReqB : UploadReq := ⟨some "9", some "col9", some fileB⟩

/-! ### Claims about validation, cleanup and response relaying -/

/-- C1 counterexample: an upload request that carries a file (so multer
created a temp file) but lacks `item_id` is rejected with 400 and the
handler performs no `fs.unlink` at all — not the one deletion attempt the
claim requires for every request with a temp file. -/
theorem c1_counterexample :
    (UploadReq.mk none (some "col1") (some fileA)).file.isSome = true ∧
    (uploadHandler parseNone "key" "----WebKitFormBoundaryzzz"
      (UploadReq.mk none (some "col1") (some fileA)) .transportError).response.status = 400 ∧
    (uploadHandler parseNone "key" "----WebKitFormBoundaryzzz"
      (UploadReq.mk none (some "col1") (some fileA)) .transportError).unlinks = [] :=
  ⟨rfl, rfl, rfl⟩

/-- C1 (amended): every upload request that passes validation (`item_id`
and `column_id` truthy, file present) produces exactly one temp-file
deletion attempt, regardless of the upstream outcome `up`; requests
rejected with 400 produce none. -/
theorem c1_unlink_once_validated {J : Type} (parse : String → Option J)
    (apiKey boundary : String) (req : UploadReq) (up : UpstreamResult) (f : FileRec)
    (h1 : truthyOpt req.item_id = true) (h2 : truthyOpt req.column_id = true)
    (h3 : req.file = some f) :
    (uploadHandler parse apiKey boundary req up).unlinks = [f.path] := by
  simp [uploadHandler, h1, h2, h3]

/-- C1 witness: the amended statement at a concrete validated request. -/
theorem c1_witness :
    (uploadHandler parseNone "key" "----WebKitFormBoundaryzzz"
      (UploadReq.mk (some "42") (some "col1") (some fileA)) .transportError).unlinks
      = ["uploads/tmp1"] :=
  c1_unlink_once_validated parseNone "key" "----WebKitFormBoundaryzzz"
    (UploadReq.mk (some "42") (some "col1") (some fileA)) .transportError fileA
    (by decide) (by decide) rfl

/-- C3: a request to any of the three routes missing a required field is
answered with status 400 and issues no outbound upstream call. -/
theorem c3_missing_field_no_upstream {J : Type} (parse : String → Option J)
    (apiKey boundary : String) (ureq : UploadReq) (ireq : CreateItemReq)
    (sreq : CreateSubitemReq) (up : UpstreamResult) :
    ((truthyOpt ureq.item_id = false ∨ truthyOpt ureq.column_id = false ∨ ureq.file = none) →
      (uploadHandler parse apiKey boundary ureq up).response.status = 400 ∧
      (uploadHandler parse apiKey boundary ureq up).outbound = []) ∧
    ((truthy ireq.boardId = false ∨ truthy ireq.itemName = false) →
      (createItemHandler parse apiKey ireq up).response.status = 400 ∧
      (createItemHandler parse apiKey ireq up).outbound = []) ∧
    ((truthy sreq.parentItemId = false ∨ truthy sreq.itemName = false) →
      (createSubitemHandler parse apiKey sreq up).response.status = 400 ∧
      (createSubitemHandler parse apiKey sreq up).outbound = []) := by
  refine ⟨?_, ?_, ?_⟩
  · intro h
    unfold uploadHandler
    rcases h with h | h | h
    · simp [h]
    · simp [h]
    · cases hc : (!truthyOpt ureq.item_id || !truthyOpt ureq.column_id) <;> simp [hc, h]
  · intro h
    unfold createItemHandler
    rcases h with h | h <;> simp [h]
  · intro h
    unfold createSubitemHandler
    rcases h with h | h <;> simp [h]

/-- C3 witness: the three rejections at concrete requests with a missing
field each. -/
theorem c3_witness :
    ((uploadHandler parseNone "key" "bdy" (UploadReq.mk (some "1") (some "c") none)
        .transportError).response.status = 400 ∧
      (uploadHandler parseNone "key" "bdy" (UploadReq.mk (some "1") (some "c") none)
        .transportError).outbound = []) ∧
    ((createItemHandler parseNone "key" (CreateItemReq.mk .undef (.str "T"))
        .transportError).response.status = 400 ∧
      (createItemHandler parseNone "key" (CreateItemReq.mk .undef (.str "T"))
        .transportError).outbound = []) ∧
    ((createSubitemHandler parseNone "key" (CreateSubitemReq.mk (.num 3) .undef)
        .transportError).response.status = 400 ∧
      (createSubitemHandler parseNone "key" (CreateSubitemReq.mk (.num 3) .undef)
        .transportError).outbound = []) := by
  have h := c3_missing_field_no_upstream parseNone "key" "bdy"
    (UploadReq.mk (some "1") (some "c") none) (CreateItemReq.mk .undef (.str "T"))
    (CreateSubitemReq.mk (.num 3) .undef) .transportError
  exact ⟨h.1 (Or.inr (Or.inr rfl)), h.2.1 (Or.inl (by decide)), h.2.2 (Or.inr (by decide))⟩

/-- C4: whenever the upstream body parses as JSON, each handler relays the
parsed JSON value with inbound status 200. -/
theorem c4_json_relayed {J : Type} (parse : String → Option J)
    (apiKey boundary : String) (ureq : UploadReq) (ireq : CreateItemReq)
    (sreq : CreateSubitemReq) (s : Nat) (body : String) (j : J)
    (hp : parse body = some j) :
    (∀ f : FileRec, ureq.file = some f → truthyOpt ureq.item_id = true →
      truthyOpt ureq.column_id = true →
      (uploadHandler parse apiKey boundary ureq (.response s body)).response = ⟨200, .json j⟩) ∧
    (truthy ireq.boardId = true → truthy ireq.itemName = true →
      (createItemHandler parse apiKey ireq (.response s body)).response = ⟨200, .json j⟩) ∧
    (truthy sreq.parentItemId = true → truthy sreq.itemName = true →
      (createSubitemHandler parse apiKey sreq (.response s body)).response = ⟨200, .json j⟩) := by
  refine ⟨?_, ?_, ?_⟩
  · intro f hf h1 h2
    simp [uploadHandler, h1, h2, hf, respondUpstream, hp]
  · intro h1 h2
    simp [createItemHandler, h1, h2, respondUpstream, hp]
  · intro h1 h2
    simp [createSubitemHandler, h1, h2, respondUpstream, hp]

/-- C4 witness: a JSON-parsable upstream body is relayed with status 200
by all three handlers at concrete requests. -/
theorem c4_witness :
    (uploadHandler parseLen "key" "bdy" uReqB (.response 200 "ok")).response = ⟨200, .json 2⟩ ∧
    (createItemHandler parseLen "key" (CreateItemReq.mk (.num 5) (.str "T"))
      (.response 200 "ok")).response = ⟨200, .json 2⟩ ∧
    (createSubitemHandler parseLen "key" (CreateSubitemReq.mk (.num 5) (.str "T"))
      (.response 200 "ok")).response = ⟨200, .json 2⟩ := by
  have h := c4_json_relayed parseLen "key" "bdy" uReqB (CreateItemReq.mk (.num 5) (.str "T"))
    (CreateSubitemReq.mk (.num 5) (.str "T")) 200 "ok" 2 rfl
  exact ⟨h.1 fileB rfl (by decide) (by decide), h.2.1 (by decide) (by decide),
    h.2.2 (by decide) (by decide)⟩

/-- C5: whenever the upstream body does not parse as JSON, each handler
answers 500 with the fixed message `Invalid JSON response`; the handlers
are total functions, so no fault escapes. -/
theorem c5_nonjson_500 {J : Type} (parse : String → Option J)
    (apiKey boundary : String) (ureq : UploadReq) (ireq : CreateItemReq)
    (sreq : CreateSubitemReq) (s : Nat) (body : String)
    (hp : parse body = none) :
    (∀ f : FileRec, ureq.file = some f → truthyOpt ureq.item_id = true →
      truthyOpt ureq.column_id = true →
      (uploadHandler parse apiKey boundary ureq (.response s body)).response
        = ⟨500, .text "Invalid JSON response"⟩) ∧
    (truthy ireq.boardId = true → truthy ireq.itemName = true →
      (createItemHandler parse apiKey ireq (.response s body)).response
        = ⟨500, .text "Invalid JSON response"⟩) ∧
    (truthy sreq.parentItemId = true → truthy sreq.itemName = true →
      (createSubitemHandler parse apiKey sreq (.response s body)).response
        = ⟨500, .text "Invalid JSON response"⟩) := by
  refine ⟨?_, ?_, ?_⟩
  · intro f hf h1 h2
    simp [uploadHandler, h1, h2, hf, respondUpstream, hp]
  · intro h1 h2
    simp [createItemHandler, h1, h2, respondUpstream, hp]
  · intro h1 h2
    simp [createSubitemHandler, h1, h2, respondUpstream, hp]

/-- C5 witness: a non-JSON upstream body yields 500 `Invalid JSON response`
at concrete requests on all three routes. -/
theorem c5_witness :
    (uploadHandler parseNone "key" "bdy" uReqB (.response 200 "<html>")).response
      = ⟨500, .text "Invalid JSON response"⟩ ∧
    (createItemHandler parseNone "key" (CreateItemReq.mk (.num 5) (.str "T"))
      (.response 200 "<html>")).response = ⟨500, .text "Invalid JSON response"⟩ ∧
    (createSubitemHandler parseNone "key" (CreateSubitemReq.mk (.num 5) (.str "T"))
      (.response 200 "<html>")).response = ⟨500, .text "Invalid JSON response"⟩ := by
  have h := c5_nonjson_500 parseNone "key" "bdy" uReqB (CreateItemReq.mk (.num 5) (.str "T"))
    (CreateSubitemReq.mk (.num 5) (.str "T")) 200 "<html>" rfl
  exact ⟨h.1 fileB rfl (by decide) (by decide), h.2.1 (by decide) (by decide),
    h.2.2 (by decide) (by decide)⟩

/-- C6: for every upload request the outbound call carries a
`Content-Length` header equal to the length of the single assembled
buffer (UTF-8 form text, raw file bytes, closing boundary marker), the
header list declares no transfer encoding, and the handler dispatches
exactly that buffer. -/
theorem c6_content_length {J : Type} (parse : String → Option J)
    (apiKey boundary : String) (req : UploadReq) (up : UpstreamResult) (f : FileRec)
    (h1 : truthyOpt req.item_id = true) (h2 : truthyOpt req.column_id = true)
    (h3 : req.file = some f) :
    (uploadHandler parse apiKey boundary req up).outbound =
      [(uploadOptions apiKey boundary (uploadPayloadOf boundary req f).length,
        uploadPayloadOf boundary req f)] ∧
    ("Content-Length", toString (uploadPayloadOf boundary req f).length) ∈
      (uploadOptions apiKey boundary (uploadPayloadOf boundary req f).length).headers ∧
    (∀ v : String, ("Transfer-Encoding", v) ∉
      (uploadOptions apiKey boundary (uploadPayloadOf boundary req f).length).headers) ∧
    uploadPayloadOf boundary req f =
      (uploadFormData boundary addFileQuery
        (stringifyVariables (req.item_id.getD "") (req.column_id.getD "")) f.originalname).data
      ++ f.content ++ ("\r\n--" ++ boundary ++ "--\r\n").data := by
  refine ⟨by simp [uploadHandler, h1, h2, h3], by simp [uploadOptions], ?_, rfl⟩
  intro v hv
  simp [uploadOptions, List.mem_cons, Prod.ext_iff] at hv

/-- C6 witness: the Content-Length conclusion at a concrete validated
upload request. -/
theorem c6_witness :
    (uploadHandler parseNone "key" "bdy" uReqB .transportError).outbound =
      [(uploadOptions "key" "bdy" (uploadPayloadOf "bdy" uReqB fileB).length,
        uploadPayloadOf "bdy" uReqB fileB)] ∧
    ("Content-Length", toString (uploadPayloadOf "bdy" uReqB fileB).length) ∈
      (uploadOptions "key" "bdy" (uploadPayloadOf "bdy" uReqB fileB).length).headers ∧
    (∀ v : String, ("Transfer-Encoding", v) ∉
      (uploadOptions "key" "bdy" (uploadPayloadOf "bdy" uReqB fileB).length).headers) ∧
    uploadPayloadOf "bdy" uReqB fileB =
      (uploadFormData "bdy" addFileQuery
        (stringifyVariables (uReqB.item_id.getD "") (uReqB.column_id.getD ""))
        fileB.originalname).data
      ++ fileB.content ++ ("\r\n--" ++ "bdy" ++ "--\r\n").data :=
  c6_content_length parseNone "key" "bdy" uReqB .transportError fileB
    (by decide) (by decide) rfl

set_option maxRecDepth 10000 in
/-- C7: the create-item mutation is built by direct interpolation of the
caller-supplied values with no escaping, and for the body
`{"boardId": 123, "itemName": "Task A"}` the mutation text contains
`create_item(board_id: 123, item_name: "Task A")` and is dispatched
upstream inside the JSON request body. -/
theorem c7_create_item_interpolation :
    (∀ boardId itemName : String,
      createItemQuery boardId itemName =
        "\n    mutation \x7b\n      create_item(board_id: " ++ boardId ++
        ", item_name: \x22" ++ itemName ++
        "\x22) \x7b\n        id\n      \x7d\n    \x7d\n  ") ∧
    ("create_item(board_id: 123, item_name: \x22Task A\x22)".data <:+:
      (createItemQuery (interp (.num 123)) (interp (.str "Task A"))).data) ∧
    ((createItemHandler parseNone "key" (CreateItemReq.mk (.num 123) (.str "Task A"))
        .transportError).outbound
      = [(v2Options "key", (stringifyQueryBody (createItemQuery "123" "Task A")).data)]) := by
  refine ⟨fun b n => rfl, by decide, by decide⟩

/-- C8: field presence is checked by truthiness, so present-but-falsy
fields (`boardId` 0, empty `itemName`, empty `item_id` or `column_id`)
are rejected with 400 as missing. -/
theorem c8_truthiness_rejection :
    (createItemHandler parseNone "key" (CreateItemReq.mk (.num 0) (.str "Task"))
        .transportError).response
      = ⟨400, .jsonError "Missing boardId or itemName in request body"⟩ ∧
    (createItemHandler parseNone "key" (CreateItemReq.mk (.num 7) (.str ""))
        .transportError).response
      = ⟨400, .jsonError "Missing boardId or itemName in request body"⟩ ∧
    (uploadHandler parseNone "key" "bdy" (UploadReq.mk (some "") (some "col") (some fileB))
        .transportError).response
      = ⟨400, .jsonError "Missing item_id or column_id in query params"⟩ ∧
    (uploadHandler parseNone "key" "bdy" (UploadReq.mk (some "7") (some "") (some fileB))
        .transportError).response
      = ⟨400, .jsonError "Missing item_id or column_id in query params"⟩ ∧
    (createSubitemHandler parseNone "key" (CreateSubitemReq.mk (.num 0) (.str "Sub"))
        .transportError).response
      = ⟨400, .jsonError "Missing parentItemId or itemName in request body"⟩ := by
  refine ⟨by decide, by decide, by decide, by decide, by decide⟩

/-- C9: the upstream status code is ignored: each handler's entire result
depends only on the upstream body, and a JSON-parsable body is relayed
with inbound status 200 whatever the upstream status was. -/
theorem c9_upstream_status_ignored {J : Type} (parse : String → Option J)
    (apiKey boundary : String) (ureq : UploadReq) (ireq : CreateItemReq)
    (sreq : CreateSubitemReq) (s s' : Nat) (body : String) :
    (uploadHandler parse apiKey boundary ureq (.response s body)
      = uploadHandler parse apiKey boundary ureq (.response s' body)) ∧
    (createItemHandler parse apiKey ireq (.response s body)
      = createItemHandler parse apiKey ireq (.response s' body)) ∧
    (createSubitemHandler parse apiKey sreq (.response s body)
      = createSubitemHandler parse apiKey sreq (.response s' body)) ∧
    (∀ (j : J) (f : FileRec), parse body = some j → ureq.file = some f →
      truthyOpt ureq.item_id = true → truthyOpt ureq.column_id = true →
      (uploadHandler parse apiKey boundary ureq (.response s body)).response
        = ⟨200, .json j⟩) := by
  refine ⟨rfl, rfl, rfl, ?_⟩
  intro j f hp hf h1 h2
  simp [uploadHandler, h1, h2, hf, respondUpstream, hp]

/-- C9 witness: a concrete upload whose upstream answered with status 500
and a JSON body is relayed identically to one answered with status 404,
and is relayed with inbound status 200. -/
theorem c9_witness :
    (uploadHandler parseLen "key" "bdy" uReqB (.response 500 "ok")
      = uploadHandler parseLen "key" "bdy" uReqB (.response 404 "ok")) ∧
    (createItemHandler parseLen "key" (CreateItemReq.mk (.num 5) (.str "T"))
        (.response 500 "ok")
      = createItemHandler parseLen "key" (CreateItemReq.mk (.num 5) (.str "T"))
        (.response 404 "ok")) ∧
    (createSubitemHandler parseLen "key" (CreateSubitemReq.mk (.num 5) (.str "T"))
        (.response 500 "ok")
      = createSubitemHandler parseLen "key" (CreateSubitemReq.mk (.num 5) (.str "T"))
        (.response 404 "ok")) ∧
    (uploadHandler parseLen "key" "bdy" uReqB (.response 500 "ok")).response
      = ⟨200, .json 2⟩ := by
  have h := c9_upstream_status_ignored parseLen "key" "bdy" uReqB
    (CreateItemReq.mk (.num 5) (.str "T")) (CreateSubitemReq.mk (.num 5) (.str "T"))
    500 404 "ok"
  exact ⟨h.1, h.2.1, h.2.2.1, h.2.2.2 2 fileB rfl rfl (by decide) (by decide)⟩

/-! ### A conforming multipart / GraphQL-upload parser

Modelled from the spec: the spec's round-trip property (§8) quantifies
over "a conforming multipart/GraphQL-upload parser", which is not part of
this repository; the parser below reads a four-part body delimited by the
given boundary, splits each part into headers and content at the first
blank line, checks the part names `query` / `variables` / `map` /
`fileField`, and extracts the quoted filename of the file part. -/

/-- Byte sequence `\r\n`. -/
def crlf : List Char := "\r\n".data

/-- Byte sequence `\r\n\r\n`, the header/content separator of a part. -/
def crlf2 : List Char := "\r\n\r\n".data

/-- Byte sequence `--`. -/
def dashes : List Char := "--".data

/-- Byte sequence `"`. -/
def quoteMark : List Char := "\x22".data

/-- The opening delimiter `--boundary\r\n`. -/
def dashBoundary (B : List Char) : List Char := dashes ++ (B ++ crlf)

/-- The delimiter `\r\n--boundary\r\n` between two parts. -/
def midDelim (B : List Char) : List Char := crlf ++ (dashes ++ (B ++ crlf))

/-- The closing delimiter `\r\n--boundary--\r\n`. -/
def closeDelim (B : List Char) : List Char := crlf ++ (dashes ++ (B ++ "--\r\n".data))

/-- Header of the `query` part. -/
def hdrQuery : List Char := "Content-Disposition: form-data; name=\x22query\x22".data

/-- Header of the `variables` part. -/
def hdrVariables : List Char := "Content-Disposition: form-data; name=\x22variables\x22".data

/-- Header of the `map` part. -/
def hdrMap : List Char := "Content-Disposition: form-data; name=\x22map\x22".data

/-- Leading text of the file part headers, up to the opening filename quote. -/
def hdrFilePre : List Char :=
  "Content-Disposition: form-data; name=\x22fileField\x22; filename=\x22".data

/-- File part headers after the closing filename quote. -/
def hdrFileTail : List Char := "\r\nContent-Type: application/octet-stream".data

/-- File part headers from the closing filename quote on. -/
def hdrFilePost : List Char := quoteMark ++ hdrFileTail

/-- The fixed `map` part content `{"fileField": ["variables.file"]}`
(`server.js` line 83). -/
def mapJson : String := "\x7b\x22fileField\x22: [\x22variables.file\x22]\x7d"

/-- Drop an expected literal head from a byte sequence. -/
def dropHead? (p l : List Char) : Option (List Char) :=
  if p.isPrefixOf l then some (l.drop p.length) else none

/-- Split a byte sequence at the first occurrence of `sep`, returning the
bytes before the occurrence and the bytes after it; `none` when `sep`
does not occur. -/
def breakOnFirst (sep : List Char) : List Char → Option (List Char × List Char)
  | [] => if sep.isPrefixOf [] then some ([], []) else none
  | a :: rest =>
    if sep.isPrefixOf (a :: rest) then some ([], (a :: rest).drop sep.length)
    else
      match breakOnFirst sep rest with
      | some (x, y) => some (a :: x, y)
      | none => none

/-- Result of parsing a GraphQL multipart upload body. -/
structure ParsedUpload where
  query : List Char
  variablesJson : List Char
  mapJson : List Char
  filename : List Char
  fileBytes : List Char
deriving DecidableEq

/-- Modelled from the spec: a conforming parser of the GraphQL
multipart-upload body, driven by the boundary `B` declared in the
`Content-Type` header.  It locates the parts at the first occurrences of
the boundary delimiters, splits each part at the first blank line,
verifies the part names, and reads the filename between the quotes of the
file part's `Content-Disposition` header. -/
def parseGraphQLUpload (B body : List Char) : Option ParsedUpload := do
  let r0 ← dropHead? (dashBoundary B) body
  let (c1, r1) ← breakOnFirst (midDelim B) r0
  let (c2, r2) ← breakOnFirst (midDelim B) r1
  let (c3, r3) ← breakOnFirst (midDelim B) r2
  let (c4, tl) ← breakOnFirst (closeDelim B) r3
  if tl = [] then
    let (h1, qc) ← breakOnFirst crlf2 c1
    let (h2, vc) ← breakOnFirst crlf2 c2
    let (h3, mc) ← breakOnFirst crlf2 c3
    let (h4, fc) ← breakOnFirst crlf2 c4
    if h1 = hdrQuery ∧ h2 = hdrVariables ∧ h3 = hdrMap then
      let fnrest ← dropHead? hdrFilePre h4
      let (fn, hrest) ← breakOnFirst quoteMark fnrest
      if hrest = hdrFileTail then some ⟨qc, vc, mc, fn, fc⟩ else none
    else none
  else none

/-! ### Splitting lemmas for the parser -/

/-- `sep` does not occur in `x ++ (sep ++ y)` before position `x.length`
(in particular not inside `x`, nor straddling `x` and the separator). -/
def NoEarlyOccur (sep x y : List Char) : Prop :=
  ∀ i, i < x.length → sep.isPrefixOf ((x ++ (sep ++ y)).drop i) = false

instance (sep x y : List Char) : Decidable (NoEarlyOccur sep x y) := by
  unfold NoEarlyOccur
  infer_instance

lemma sDataAppend (a b : String) : (a ++ b).data = a.data ++ b.data := by
  cases a
  cases b
  rfl

lemma isPrefixOf_self_append (l t : List Char) : l.isPrefixOf (l ++ t) = true := by
  induction l with
  | nil => simp
  | cons a as ih => simp [List.isPrefixOf, ih]

lemma breakOnFirst_hit (sep l : List Char) (h : sep.isPrefixOf l = true) :
    breakOnFirst sep l = some ([], l.drop sep.length) := by
  cases l with
  | nil => simp [breakOnFirst, h]
  | cons a rest => simp [breakOnFirst, h]

lemma breakOnFirst_miss_cons (sep : List Char) (a : Char) (l : List Char)
    (h : sep.isPrefixOf (a :: l) = false) :
    breakOnFirst sep (a :: l) =
      match breakOnFirst sep l with
      | some (x, y) => some (a :: x, y)
      | none => none := by
  simp [breakOnFirst, h]

lemma breakOnFirst_of_noEarlyOccur (sep : List Char) (hs : sep ≠ []) :
    ∀ x y : List Char, NoEarlyOccur sep x y →
      breakOnFirst sep (x ++ (sep ++ y)) = some (x, y)
  | [], y, _ => by
    rw [List.nil_append, breakOnFirst_hit sep (sep ++ y) (isPrefixOf_self_append sep y),
      List.drop_left]
  | a :: x', y, h => by
    have h0 : sep.isPrefixOf (a :: (x' ++ (sep ++ y))) = false := by
      have h' := h 0 (by simp)
      simpa using h'
    rw [List.cons_append, breakOnFirst_miss_cons sep a _ h0,
      breakOnFirst_of_noEarlyOccur sep hs x' y (fun i hi => by
        have h' := h (i + 1) (by simpa using Nat.succ_lt_succ hi)
        simpa using h')]

lemma noEarlyOccur_of_head_not_mem (c : Char) (s : List Char) :
    ∀ x y : List Char, c ∉ x → NoEarlyOccur (c :: s) x y
  | [], _, _ => by intro i hi; simp at hi
  | a :: x', y, hc => by
    intro i hi
    cases i with
    | zero =>
      have hca : (c == a) = false := by
        have hne : ¬ c = a := fun hcc => hc (by simp [hcc])
        simpa using hne
      simp [List.isPrefixOf, hca]
    | succ i' =>
      have hi' : i' < x'.length := by simpa using hi
      have h' := noEarlyOccur_of_head_not_mem c s x' y
        (fun hmem => hc (List.mem_cons_of_mem a hmem)) i' hi'
      simpa using h'

lemma noEarlyOccur_crlf2 (x y : List Char) (h : '\r' ∉ x) : NoEarlyOccur crlf2 x y := by
  have e : crlf2 = '\r' :: "\n\r\n".data := by decide
  rw [e]
  exact noEarlyOccur_of_head_not_mem '\r' "\n\r\n".data x y h

lemma noEarlyOccur_quote (x y : List Char) (h : '\x22' ∉ x) : NoEarlyOccur quoteMark x y := by
  have e : quoteMark = '\x22' :: [] := by decide
  rw [e]
  exact noEarlyOccur_of_head_not_mem '\x22' [] x y h

lemma midDelim_ne_nil (B : List Char) : midDelim B ≠ [] := by
  unfold midDelim
  intro hcon
  exact absurd (List.append_eq_nil.mp hcon).1 (by decide)

lemma closeDelim_ne_nil (B : List Char) : closeDelim B ≠ [] := by
  unfold closeDelim
  intro hcon
  exact absurd (List.append_eq_nil.mp hcon).1 (by decide)

lemma crlf2_ne_nil : crlf2 ≠ [] := by decide

lemma quoteMark_ne_nil : quoteMark ≠ [] := by decide

lemma dropHead?_append (p l : List Char) : dropHead? p (p ++ l) = some l := by
  simp [dropHead?, isPrefixOf_self_append, List.drop_left]

/-! ### Decomposition of the assembled payload at the part boundaries -/

/-- The `query` part as framed on the wire. -/
def part1 (q : String) : List Char := hdrQuery ++ (crlf2 ++ q.data)

/-- The `variables` part as framed on the wire. -/
def part2 (v : String) : List Char := hdrVariables ++ (crlf2 ++ v.data)

/-- The `map` part as framed on the wire. -/
def part3 : List Char := hdrMap ++ (crlf2 ++ mapJson.data)

/-- Variant of the splitting lemma for the closing delimiter, which is
followed by nothing. -/
lemma breakOnFirst_append_close (sep x : List Char) (hs : sep ≠ [])
    (h : NoEarlyOccur sep x []) :
    breakOnFirst sep (x ++ sep) = some (x, []) := by
  have h' := breakOnFirst_of_noEarlyOccur sep hs x [] h
  simpa using h'

set_option maxRecDepth 100000 in
/-- The assembled upload buffer, regrouped at the boundaries the parser
splits at. -/
lemma uploadPayload_decomp (B q v fn : String) (fb : List Char) :
    uploadPayload B q v fn fb =
      dashBoundary B.data ++
        (part1 q ++ (midDelim B.data ++
          (part2 v ++ (midDelim B.data ++
            (part3 ++ (midDelim B.data ++
              (((hdrFilePre ++ (fn.data ++ hdrFilePost)) ++ (crlf2 ++ fb)) ++
                closeDelim B.data))))))) := by
  simp [uploadPayload, uploadFormData, dashBoundary, midDelim, closeDelim,
    part1, part2, part3, dashes, crlf, crlf2, hdrQuery, hdrVariables, hdrMap,
    hdrFilePre, hdrFilePost, hdrFileTail, quoteMark, mapJson, sDataAppend,
    List.append_assoc]

set_option maxRecDepth 100000 in
/-- C2 counterexample: for the filename `he"llo.txt` (a legal input —
the claim quantifies over every filename) the assembled body does not
round-trip: the double quote ends the filename early and breaks the part
framing, so the conforming parser does not give back the original data. -/
theorem c2_counterexample :
    parseGraphQLUpload ("bnd" : String).data
        (uploadPayload "bnd" "Q" "V" "he\x22llo.txt" "AB".data)
      ≠ some ⟨("Q" : String).data, ("V" : String).data, mapJson.data,
          ("he\x22llo.txt" : String).data, "AB".data⟩ := by decide

set_option maxHeartbeats 2000000 in
/-- C2 (amended): the multipart round-trip holds for every mutation text,
variables JSON, filename, and file byte sequence in which the boundary
delimiters do not occur early in any part (`h1`-`h5`) and the filename
contains no double quote (`h6`): the conforming parser run with the
declared boundary gives back the mutation text, the variables JSON, the
map, the filename, and the file bytes. -/
theorem c2_roundtrip_hygienic (B q v fn : String) (fb : List Char)
    (h1 : NoEarlyOccur (midDelim B.data) (part1 q)
      (part2 v ++ (midDelim B.data ++ (part3 ++ (midDelim B.data ++
        (((hdrFilePre ++ (fn.data ++ hdrFilePost)) ++ (crlf2 ++ fb)) ++
          closeDelim B.data))))))
    (h2 : NoEarlyOccur (midDelim B.data) (part2 v)
      (part3 ++ (midDelim B.data ++
        (((hdrFilePre ++ (fn.data ++ hdrFilePost)) ++ (crlf2 ++ fb)) ++
          closeDelim B.data))))
    (h3 : NoEarlyOccur (midDelim B.data) part3
      (((hdrFilePre ++ (fn.data ++ hdrFilePost)) ++ (crlf2 ++ fb)) ++
        closeDelim B.data))
    (h4 : NoEarlyOccur (closeDelim B.data)
      ((hdrFilePre ++ (fn.data ++ hdrFilePost)) ++ (crlf2 ++ fb)) [])
    (h5 : NoEarlyOccur crlf2 (hdrFilePre ++ (fn.data ++ hdrFilePost)) fb)
    (h6 : '\x22' ∉ fn.data) :
    parseGraphQLUpload B.data (uploadPayload B q v fn fb) =
      some ⟨q.data, v.data, mapJson.data, fn.data, fb⟩ := by
  have e1 := breakOnFirst_of_noEarlyOccur (midDelim B.data) (midDelim_ne_nil _) (part1 q) _ h1
  have e2 := breakOnFirst_of_noEarlyOccur (midDelim B.data) (midDelim_ne_nil _) (part2 v) _ h2
  have e3 := breakOnFirst_of_noEarlyOccur (midDelim B.data) (midDelim_ne_nil _) part3 _ h3
  have e4 := breakOnFirst_append_close (closeDelim B.data) _ (closeDelim_ne_nil _) h4
  have eh1 : breakOnFirst crlf2 (part1 q) = some (hdrQuery, q.data) := by
    have h' := breakOnFirst_of_noEarlyOccur crlf2 crlf2_ne_nil hdrQuery q.data
      (noEarlyOccur_crlf2 _ _ (by decide))
    simpa [part1] using h'
  have eh2 : breakOnFirst crlf2 (part2 v) = some (hdrVariables, v.data) := by
    have h' := breakOnFirst_of_noEarlyOccur crlf2 crlf2_ne_nil hdrVariables v.data
      (noEarlyOccur_crlf2 _ _ (by decide))
    simpa [part2] using h'
  have eh3 : breakOnFirst crlf2 part3 = some (hdrMap, mapJson.data) := by
    have h' := breakOnFirst_of_noEarlyOccur crlf2 crlf2_ne_nil hdrMap mapJson.data
      (noEarlyOccur_crlf2 _ _ (by decide))
    simpa [part3] using h'
  have eh5 : breakOnFirst crlf2 ((hdrFilePre ++ (fn.data ++ hdrFilePost)) ++ (crlf2 ++ fb))
      = some (hdrFilePre ++ (fn.data ++ hdrFilePost), fb) :=
    breakOnFirst_of_noEarlyOccur crlf2 crlf2_ne_nil _ _ h5
  have eh6 : dropHead? hdrFilePre (hdrFilePre ++ (fn.data ++ hdrFilePost))
      = some (fn.data ++ hdrFilePost) := dropHead?_append _ _
  have eh7 : breakOnFirst quoteMark (fn.data ++ hdrFilePost) = some (fn.data, hdrFileTail) := by
    have h' := breakOnFirst_of_noEarlyOccur quoteMark quoteMark_ne_nil fn.data hdrFileTail
      (noEarlyOccur_quote _ _ h6)
    simpa [hdrFilePost] using h'
  simp only [List.append_assoc] at e1 e2 e3 e4 eh5
  rw [uploadPayload_decomp]
  simp [parseGraphQLUpload, dropHead?_append, e1, e2, e3, e4, eh1, eh2, eh3, eh5, eh6, eh7]

set_option maxRecDepth 100000 in
/-- C2 witness: the round trip at concrete hygienic inputs. -/
theorem c2_witness :
    parseGraphQLUpload ("bnd" : String).data (uploadPayload "bnd" "Q" "V" "f.txt" "AB".data)
      = some ⟨("Q" : String).data, ("V" : String).data, mapJson.data,
          ("f.txt" : String).data, "AB".data⟩ :=
  c2_roundtrip_hygienic "bnd" "Q" "V" "f.txt" "AB".data
    (by decide) (by decide) (by decide) (by decide) (by decide) (by decide)

/-- Everything the upload form text contains before the spliced filename. -/
def uploadFormDataTillFilename (boundary query variablesJson : String) : String :=
  "--" ++ boundary ++ "\r\n" ++
  "Content-Disposition: form-data; name=\x22query\x22\r\n\r\n" ++
  query ++ "\r\n" ++
  "--" ++ boundary ++ "\r\n" ++
  "Content-Disposition: form-data; name=\x22variables\x22\r\n\r\n" ++
  variablesJson ++ "\r\n" ++
  "--" ++ boundary ++ "\r\n" ++
  "Content-Disposition: form-data; name=\x22map\x22\r\n\r\n" ++
  "\x7b\x22fileField\x22: [\x22variables.file\x22]\x7d\r\n" ++
  "--" ++ boundary ++ "\r\n" ++
  "Content-Disposition: form-data; name=\x22fileField\x22; filename=\x22"

/-- Everything the upload form text contains after the spliced filename. -/
def uploadFormDataAfterFilename : String :=
  "\x22\r\n" ++ "Content-Type: application/octet-stream\r\n\r\n"

set_option maxRecDepth 100000 in
/-- C10: the client-supplied original filename is spliced verbatim and
unescaped between the double quotes of the file part's
`Content-Disposition` header, and a filename containing a CR/LF sequence
alters the part framing: with filename `a\r\n\r\nz.txt` the conforming
parser no longer recognises the body. -/
theorem c10_filename_verbatim :
    (∀ boundary query variablesJson filename : String,
      (uploadFormData boundary query variablesJson filename).data =
        (uploadFormDataTillFilename boundary query variablesJson).data ++ filename.data ++
        uploadFormDataAfterFilename.data) ∧
    parseGraphQLUpload ("bnd" : String).data
        (uploadPayload "bnd" "Q" "V" "a\r\n\r\nz.txt" "AB".data) = none := by
  constructor
  · intro b qq vv fnm
    simp [uploadFormData, uploadFormDataTillFilename, uploadFormDataAfterFilename,
      sDataAppend, List.append_assoc]
  · decide
